import Mathlib

/-!
# Verification of the automated-smart-contract-tester core

Shallow embedding of the submission-execution pipeline of the
`automated-smart-contract-tester` repository (two TypeScript services: a
front service and a test-runner service), together with proofs about the
embedded functions.

Embedded modules:
* `forgeUtils` — `app/test-runner/src/forge/utils/forgeUtils.ts`
* `projectService` — `app/test-runner/src/services/project-service.ts`
* `executionApi` — `app/services/src/api/services/testrunner/executionApi.ts`
* `routerUtils` — `app/services/src/utils/router-utils.ts`
* `messageRequestService` — the message-request service (unnamed source file)

JavaScript idioms are modelled as follows: `undefined`/`null` become
`Option`, thrown errors become `Except AppError`, objects with optional
fields become structures of `Option` fields, object spread `{...a, ...b}`
becomes a field-wise `Option` merge preferring `b`'s present fields, and
ordered object entries become association lists.
-/

/-- An application error (`AppError`): an HTTP-like status code plus a message.
Matches the `AppError` class used across both services. -/
structure AppError where
  statusCode : Nat
  message : String
deriving Repr, DecidableEq

namespace forgeUtils

/-- Per-test status in a `TestOutput` (`PASS` / `FAIL`). -/
inductive TStatus where
  | PASS
  | FAIL
deriving Repr, DecidableEq

/-- One per-test record of a `TestOutput`: the test name plus optional
status, gas usage, gas diff and failure reason (fields of the dynamic
objects produced by the parsers; absent fields are `none`). -/
structure TestRecord where
  test : String
  status : Option TStatus := none
  gasUsed : Option Nat := none
  gasDiff : Option Int := none
  reason : Option String := none
deriving Repr, DecidableEq

/-- The `overall` block of a `TestOutput`; every field is optional
(present only when derivable from the source text). -/
structure Overall where
  numberOfTests : Option Nat := none
  numberOfPassed : Option Nat := none
  numberOfFailed : Option Nat := none
  passed : Option Bool := none
  gasDiffOverall : Option Int := none
deriving Repr, DecidableEq

/-- A `TestOutput` value: the `overall` block plus the optional ordered
`tests` sequence (`tests` itself may be absent, as in the TypeScript type). -/
structure TestOutput where
  overall : Overall := {}
  tests : Option (List TestRecord) := none
deriving Repr, DecidableEq

/-- Modelled from the spec: the closed whitelist of execution arguments —
the values of the `ForgeTestExecutionArgument` enum, whose source file
(`@forge/types/enums/ForgeTestExecutionArgument`) is not present in the
repository sources. The spec fixes the closed set `matchContract`,
`matchTest`, `matchPath`, `noMatchContract`, `noMatchTest`, `noMatchPath`,
`fuzzRuns`, `fuzzSeed`. -/
def VALID_TEST_EXECUTION_ARGUMENTS : List String :=
  ["matchContract", "matchTest", "matchPath",
   "noMatchContract", "noMatchTest", "noMatchPath",
   "fuzzRuns", "fuzzSeed"]

/-- Modelled from the spec: `Constants.FORGE_CMD_COMPARE_SNAPSHOTS`, the
tool's compare-snapshots base command (the `Constants` module is not in
the repository sources; only the constant's role is specified). -/
def FORGE_CMD_COMPARE_SNAPSHOTS : String := "forge snapshot --diff"

/-- The character-list core of the regex replace
`input.replace(/([a-z])([A-Z])/g, '$1-$2')` in `convertCamelToExecArg`:
a `-` is inserted between each lowercase character and the uppercase
character that follows it. -/
def camelSplitAux : List Char → List Char
  | [] => []
  | [c] => [c]
  | c1 :: c2 :: rest =>
    if c1.isLower && c2.isUpper then c1 :: '-' :: camelSplitAux (c2 :: rest)
    else c1 :: camelSplitAux (c2 :: rest)

/-- `convertCamelToExecArg`: converts a camel-cased string to an
executable-argument form with a double-hyphen prefix
(regex split on lower/upper boundaries, then `toLowerCase`, which
lowercases every character; the lowercasing is applied per character of
the split result). -/
def convertCamelToExecArg (input : String) : String :=
  "--" ++ String.mk ((camelSplitAux input.data).map Char.toLower)

/-- JavaScript `Array.prototype.join(' ')` on a list of strings. -/
def joinSpace : List String → String
  | [] => ""
  | [x] => x
  | x :: xs => x ++ " " ++ joinSpace xs

/-- `convertTestExecutionArgsToString`: renders an optional
execution-arguments object (ordered entries) to a command-line string.
Entries whose key is not in `VALID_TEST_EXECUTION_ARGUMENTS` are filtered
out; the rest are rendered as `--kebab-key value` and joined by spaces.
`undefined` yields the empty string. -/
def convertTestExecutionArgsToString
    (executionArguments : Option (List (String × String))) : String :=
  match executionArguments with
  | none => ""
  | some entries =>
    joinSpace (((entries.filter
        fun p => VALID_TEST_EXECUTION_ARGUMENTS.contains p.1).map
        fun p => convertCamelToExecArg p.1 ++ " " ++ p.2))

/-- `getTestExecutionCommand`: the compare-snapshots base command,
extended with the rendered execution arguments when that rendering is a
non-empty (truthy) string. -/
def getTestExecutionCommand (execArgs : Option (List (String × String))) : String :=
  let executionArgsString := convertTestExecutionArgsToString execArgs
  if executionArgsString = "" then FORGE_CMD_COMPARE_SNAPSHOTS
  else FORGE_CMD_COMPARE_SNAPSHOTS ++ " " ++ executionArgsString

/-- Spec-side kebab-case conversion, written from the spec's words
(`--kebab-case value`): walk the characters keeping the previous one,
insert `-` before an uppercase character that follows a lowercase one,
and lowercase everything. -/
def kebabAux : Option Char → List Char → List Char
  | _, [] => []
  | prev, c :: rest =>
    if c.isUpper && (match prev with | some p => p.isLower | none => false)
    then '-' :: c.toLower :: kebabAux (some c) rest
    else c.toLower :: kebabAux (some c) rest

/-- Spec-side rendering of one whitelisted execution argument:
`--` plus the kebab-case form of the camelCase name, a space, the value. -/
def renderArgSpec (p : String × String) : String :=
  "--" ++ String.mk (kebabAux none p.1.data) ++ " " ++ p.2

end forgeUtils

namespace forgeUtils

/-- Output shape of `forgeTestOutputParsers.extractTestResultsFromForgeTestExecutionOutput`:
an `overall` block plus an optional array of per-test records. -/
structure ForgeTestParserOutput where
  overall : Overall := {}
  tests : Option (List TestRecord) := none
deriving Repr, DecidableEq

/-- A per-test record of the gas-diff parser: gas usage and gas change
(no `test`, `status` or `reason` fields of its own — the record sits under
its test name as key). -/
structure GasDiffRecord where
  gasUsed : Option Nat := none
  gasDiff : Option Int := none
deriving Repr, DecidableEq

/-- Output shape of `forgeGasOutputParsers.extractGasChangeFromForgeTestExecutionOutput`:
an `overall` block plus an object of per-test gas records keyed by test
name (modelled as an association list with the keys unique, as in a
JavaScript object). -/
structure GasChangeParserOutput where
  overall : Overall := {}
  tests : List (String × GasDiffRecord) := []
deriving Repr, DecidableEq

/-- JavaScript object spread `{...a, ...b}` on two `overall` blocks:
for each field, `b`'s value wins when present, else `a`'s is kept. -/
def Overall.spread (a b : Overall) : Overall where
  numberOfTests := b.numberOfTests.orElse fun _ => a.numberOfTests
  numberOfPassed := b.numberOfPassed.orElse fun _ => a.numberOfPassed
  numberOfFailed := b.numberOfFailed.orElse fun _ => a.numberOfFailed
  passed := b.passed.orElse fun _ => a.passed
  gasDiffOverall := b.gasDiffOverall.orElse fun _ => a.gasDiffOverall

/-- JavaScript object spread `{...result, ...gasRecord}` of a per-test
record with a gas-diff record: the gas record's present fields
(`gasUsed`, `gasDiff`) win; `test`, `status` and `reason` are kept. -/
def TestRecord.spreadGas (result : TestRecord) (g : GasDiffRecord) : TestRecord where
  test := result.test
  status := result.status
  gasUsed := g.gasUsed.orElse fun _ => result.gasUsed
  gasDiff := g.gasDiff.orElse fun _ => result.gasDiff
  reason := result.reason

/-- The merge step of `processForgeTestOutput` (lines 71–74 of
`forgeUtils.ts`), as a function of the two parser outputs:
`{ overall: { ...testOutput.overall, ...gasChangeOutput.overall },
   tests: testOutput.tests?.map((result) =>
     ({ ...result, ...(gasChangeOutput.tests[result.test] || {}) })) }`. -/
def processForgeTestOutputMerge (testOutput : ForgeTestParserOutput)
    (gasChangeOutput : GasChangeParserOutput) : TestOutput where
  overall := testOutput.overall.spread gasChangeOutput.overall
  tests := testOutput.tests.map fun results =>
    results.map fun result =>
      match gasChangeOutput.tests.lookup result.test with
      | some g => result.spreadGas g
      | none => result

/-- Splits a character list at the first occurrence of `sep`, returning
the parts before and after it, or `none` when `sep` does not occur. -/
def breakOnChar (sep : Char) : List Char → Option (List Char × List Char)
  | [] => none
  | c :: rest =>
    if c = sep then some ([], rest)
    else (breakOnChar sep rest).map fun p => (c :: p.1, p.2)

/-- Splits a character list into lines at `\n` characters (accumulator in
reverse order). -/
def splitLinesAux : List Char → List Char → List (List Char)
  | [], acc => [acc.reverse]
  | c :: rest, acc =>
    if c = '\n' then acc.reverse :: splitLinesAux rest []
    else splitLinesAux rest (c :: acc)

/-- Splits a string into its lines. -/
def splitLines (s : String) : List String :=
  (splitLinesAux s.data []).map String.mk

/-- The numeric value of a list of decimal digit characters. -/
def digitsVal (l : List Char) : Nat :=
  l.foldl (fun n c => n * 10 + (c.toNat - 48)) 0

/-- Parses one line of gas-snapshot text of the shape
`TestSuite:testName() (gas: <integer>)` into a per-test record
`{ test := "TestSuite.testName", status := PASS, gasUsed := <integer> }`;
any other line yields `none` (skipped silently). Part of the spec-modelled
gas-snapshot parser (see `extractTestOutputFromGasSnapshot`). -/
def parseGasSnapshotLine (line : String) : Option TestRecord :=
  match breakOnChar ':' line.data with
  | none => none
  | some (suite, rest) =>
    match breakOnChar '(' rest with
    | none => none
    | some (name, rest2) =>
      if !suite.isEmpty && !name.isEmpty
          && List.isPrefixOf (") (gas: ".data) rest2 then
        let tail := rest2.drop 8
        let digits := tail.dropLast
        if !digits.isEmpty && digits.all Char.isDigit
            && tail.getLast? == some ')' then
          some { test := String.mk (suite ++ '.' :: name),
                 status := some .PASS, gasUsed := some (digitsVal digits) }
        else none
      else none

/-- Modelled from the spec: the gas-snapshot parser
`forgeSnapshotOutputParsers.extractTestOutputFromGasSnapshot` (the parser
sources are not in the repository). Per §4.4: each non-blank line of shape
`TestSuite:testName() (gas: <integer>)` yields one PASS record; malformed
lines are skipped silently; `overall.numberOfTests` is the count of parsed
lines; unrecognized or empty input yields an empty `TestOutput` and the
parser never raises (it is a total function). -/
def extractTestOutputFromGasSnapshot (gasSnapshotText : Option String) : TestOutput :=
  match gasSnapshotText with
  | none => {}
  | some s =>
    let recs := (splitLines s).filterMap parseGasSnapshotLine
    { overall := { numberOfTests := some recs.length }, tests := some recs }

/-- `processForgeSnapshotOutput`: extracts a `TestOutput` from gas-snapshot
text by delegating to the gas-snapshot parser. -/
def processForgeSnapshotOutput (gasSnapshotText : Option String) : TestOutput :=
  extractTestOutputFromGasSnapshot gasSnapshotText

end forgeUtils

namespace projectService

/-- Modelled from the spec: `errorUtils.handleError` of the test-runner
service (error-utils is not in the repository sources) — logs and wraps an
error into an `AppError` carrying the given message, keeping the original
status code. -/
def handleError (e : AppError) (message : String) : AppError :=
  { statusCode := e.statusCode, message }

/-- The raw (unprocessed) container output: an object with an optional
`data` string (`IDockerContainerResults['output']`). -/
structure RawOutput where
  data : Option String := none
deriving Repr, DecidableEq

/-- `processDockerContainerOutput`: processes the container output (the
gas-snapshot text) with `forgeUtils.processForgeSnapshotOutput` inside a
`try`; the `catch` branch (which would wrap the error via
`errorUtils.handleError`) is unreachable because the spec-modelled parser
is total, so the function always returns successfully. -/
def processDockerContainerOutput (projectName : String)
    (output : Option RawOutput) : Except AppError forgeUtils.TestOutput :=
  Except.ok (forgeUtils.processForgeSnapshotOutput (output.bind RawOutput.data))

/-- Modelled from the spec: `DockerExitCode.PURPOSELY_STOPPED` (the
`DockerExitCode` enum is not in the repository sources) — the sentinel
exit code signalling the entrypoint's clean snapshot-only termination. -/
def DockerExitCode.PURPOSELY_STOPPED : Nat := 137

/-- Purpose tag of a container-history record. -/
inductive ContainerPurpose where
  | PROJECT_CREATION
  | SUBMISSION
deriving Repr, DecidableEq

/-- A Docker image record (`IDockerImage`): image name and engine-assigned id. -/
structure DockerImageRec where
  imageName : String
  imageID : String
deriving Repr, DecidableEq

/-- Container results as returned by `dockerUtils.runImage`: the exit
status code and the raw output. -/
structure ContainerResultsRec where
  statusCode : Nat
  output : Option RawOutput := none
deriving Repr, DecidableEq

/-- The output slot of a sealed container-results value: either still the
raw output, or the parsed `TestOutput` that replaced it. -/
inductive HistoryOutput where
  | raw (o : Option RawOutput)
  | parsed (t : forgeUtils.TestOutput)
deriving Repr, DecidableEq

/-- Container results after the (conditional) output-processing step. -/
structure ContainerResultsFinal where
  statusCode : Nat
  output : HistoryOutput
deriving Repr, DecidableEq

/-- A `DockerContainerHistory` document as constructed by `saveProject`. -/
structure DockerContainerHistoryRec where
  dockerImage : DockerImageRec
  purpose : ContainerPurpose
  container : ContainerResultsFinal
deriving Repr, DecidableEq

/-- The outcomes of the effectful steps `saveProject` performs, supplied as
an environment: reading the zip buffer, building the image
(`dockerUtils.createImage`), running the discovery container
(`dockerUtils.runImage`), and persisting image + history
(`dockerImageService.saveDockerImageWithDockerContainerHistory`, whose
success value is the `isNew` flag). -/
structure SaveProjectEnv where
  readProject : Except AppError Unit
  createImage : Except AppError DockerImageRec
  runImage : Except AppError ContainerResultsRec
  saveResult : Except AppError Bool
deriving Repr

/-- The externally visible side effects of one `saveProject` run: images
removed via `dockerUtils.removeImage` (name, `shouldPrune` flag) and
history documents persisted to the store. -/
structure SaveProjectEffects where
  removedImages : List (String × Bool) := []
  savedHistories : List DockerContainerHistoryRec := []
deriving Repr, DecidableEq

/-- `saveProject`: builds the image, runs the baseline-discovery container,
processes its output only when the exit code is `PURPOSELY_STOPPED`,
persists the image together with a `DockerContainerHistory`, and on any
error after image creation removes the image (with prune) before
re-throwing the wrapped error. -/
def saveProject (env : SaveProjectEnv) (projectName : String) :
    Except AppError (Bool × DockerContainerHistoryRec) × SaveProjectEffects :=
  let failMsg := "An error occurred while creating the " ++ projectName ++ " project."
  match env.readProject with
  | .error e => (.error (handleError e failMsg), {})
  | .ok _ =>
    match env.createImage with
    | .error e => (.error (handleError e failMsg), {})
    | .ok dockerImage =>
      match env.runImage with
      | .error e =>
        (.error (handleError e failMsg),
         { removedImages := [(dockerImage.imageName, true)] })
      | .ok containerResults =>
        match
          (if containerResults.statusCode = DockerExitCode.PURPOSELY_STOPPED then
            (processDockerContainerOutput projectName containerResults.output).map
              HistoryOutput.parsed
          else
            Except.ok (HistoryOutput.raw containerResults.output)) with
        | .error e =>
          (.error (handleError e failMsg),
           { removedImages := [(dockerImage.imageName, true)] })
        | .ok finalOutput =>
          let dockerContainerHistory : DockerContainerHistoryRec :=
            { dockerImage, purpose := .PROJECT_CREATION,
              container := { statusCode := containerResults.statusCode,
                             output := finalOutput } }
          match env.saveResult with
          | .error e =>
            (.error (handleError e failMsg),
             { removedImages := [(dockerImage.imageName, true)] })
          | .ok isNew =>
            (.ok (isNew, dockerContainerHistory),
             { savedHistories := [dockerContainerHistory] })

end projectService

namespace executionApi

/-- Container execution status as reported by the test-runner
(`ContainerExecutionStatus`); the enum source lists at least `SUCCESS`,
and the spec's taxonomy adds `APPLICATION_ERROR`, `TIMEOUT` and
`INTERNAL`. -/
inductive ContainerExecutionStatus where
  | SUCCESS
  | APPLICATION_ERROR
  | TIMEOUT
  | INTERNAL
deriving Repr, DecidableEq

/-- A `ContainerExecutionResponse` payload: the status classifying the
outcome plus the (optional) parsed test output it carries. -/
structure ContainerExecutionResponse where
  status : ContainerExecutionStatus
  output : Option forgeUtils.TestOutput := none
deriving Repr, DecidableEq

/-- Modelled from the spec: `apiErrorUtils.handleContainerError` (not in
the repository sources) converts a non-success container execution
response into an `AppError`; only its being an error matters for the
claims about `executeSubmission`. -/
def handleContainerError (response : ContainerExecutionResponse) : AppError :=
  { statusCode := 500,
    message := "An error occurred during the container execution." }

/-- `executeSubmission`: uploads the submission (the outcome of
`apiFormDataUtils.sendFormData` is supplied as an argument — a transport
error or a `ContainerExecutionResponse`); when the response's status is
not `SUCCESS`, the response is thrown via `handleContainerError` instead
of being returned. -/
def executeSubmission (projectName : String)
    (sendFormDataResult : Except AppError ContainerExecutionResponse) :
    Except AppError ContainerExecutionResponse :=
  match sendFormDataResult with
  | .error e => .error e
  | .ok submissionExecutionResponse =>
    if submissionExecutionResponse.status = ContainerExecutionStatus.SUCCESS then
      .ok submissionExecutionResponse
    else
      .error (handleContainerError submissionExecutionResponse)

end executionApi

namespace routerUtils

/-- A multer request file (`RequestFile extends Express.Multer.File`):
the originating field name, the original file name, and the optional
buffer of bytes (absent when the upload middleware stored no buffer). -/
structure RequestFile where
  fieldname : String := ""
  originalname : String := ""
  buffer : Option (List Nat) := none
deriving Repr, DecidableEq

/-- The part of an Express request `getRequestFile` looks at: the
optional attached file. -/
structure Request where
  file : Option RequestFile := none
deriving Repr, DecidableEq

/-- Modelled from the spec: the front service's
`errorUtils.handleError(err, message, statusCode)` (error-utils is not in
the repository sources) — wraps an arbitrary error into an `AppError`
with the given message and status code. -/
def handleErrorWith (message : String) (statusCode : Nat) : AppError :=
  { statusCode, message }

/-- `getRequestFile`: returns the file attached to the request. Reading
`req.file!.buffer` when `req.file` is `undefined` raises a `TypeError`,
and a missing buffer raises `Error('Cannot read the buffer.')`; both are
caught and re-thrown as a `BadRequest` (400) application error. -/
def getRequestFile (req : Request) : Except AppError RequestFile :=
  match req.file with
  | none =>
    .error (handleErrorWith "An error occurred while reading the file buffer." 400)
  | some f =>
    match f.buffer with
    | none =>
      .error (handleErrorWith "An error occurred while reading the file buffer." 400)
    | some _ => .ok f

end routerUtils

namespace messageRequestService

/-- The payload stored on a message request: a container execution
response, an application error, or some other object
(`ContainerExecutionResponse | AppError | object`). -/
inductive MessagePayload where
  | response (r : executionApi.ContainerExecutionResponse)
  | failure (e : AppError)
  | obj
deriving Repr, DecidableEq

/-- A `MessageRequest` document (`IMessageRequest`): surrogate id plus
the mutable fields `updateMessageRequest` assigns. -/
structure MessageRequestRec where
  id : Nat
  completed : Bool := false
  isError : Option Bool := none
  output : Option MessagePayload := none
  associatedDocumentId : Option Nat := none
  associatedDocumentType : Option String := none
  startingPositionInQueue : Option Nat := none
deriving Repr, DecidableEq

/-- `findMessageRequest`: looks a message request up by id in the store;
a missing document is a 404 `AppError`. -/
def findMessageRequest (db : List MessageRequestRec) (messageRequestId : Nat) :
    Except AppError MessageRequestRec :=
  match db.find? (fun m => m.id == messageRequestId) with
  | some messageRequest => .ok messageRequest
  | none => .error { statusCode := 404, message := "Message request not found." }

/-- The optional `response` argument of `updateMessageRequest`:
`{ isError: boolean; data: ... }`. -/
structure UpdateResponse where
  isError : Bool
  data : MessagePayload
deriving Repr, DecidableEq

/-- `updateMessageRequest`: re-finds the message request by id, then
assigns the associated document reference, the starting queue position
(`positionInTheQueue || 0`), `completed := true`, and — from the optional
`response` — the `isError` flag and the `output` payload (`undefined`
when no response is supplied), and saves the document. -/
def updateMessageRequest (db : List MessageRequestRec)
    (messageRequest : MessageRequestRec)
    (associatedDocumentId : Nat) (associatedDocumentType : String)
    (response : Option UpdateResponse) (positionInTheQueue : Option Nat) :
    Except AppError MessageRequestRec :=
  match findMessageRequest db messageRequest.id with
  | .error e => .error e
  | .ok messageRequestFound =>
    .ok { messageRequestFound with
          associatedDocumentId := some associatedDocumentId,
          associatedDocumentType := some associatedDocumentType,
          startingPositionInQueue := some (positionInTheQueue.getD 0),
          completed := true,
          isError := response.map UpdateResponse.isError,
          output := response.map UpdateResponse.data }

end messageRequestService

/-- Whether an `Except` value is an error (a thrown exception). -/
def isError {α : Type} : Except AppError α → Bool
  | .error _ => true
  | .ok _ => false

namespace forgeUtils

/-- Spec-side union of two optional fields preferring the non-null value
(the right side wins when both are present). -/
def unionPreferNonNull {α : Type} (a b : Option α) : Option α :=
  match b with
  | some v => some v
  | none => a

/-- Spec-side field-wise union of two `overall` blocks, preferring
non-null values (right side wins when both are present). -/
def Overall.unionSpec (a b : Overall) : Overall where
  numberOfTests := unionPreferNonNull a.numberOfTests b.numberOfTests
  numberOfPassed := unionPreferNonNull a.numberOfPassed b.numberOfPassed
  numberOfFailed := unionPreferNonNull a.numberOfFailed b.numberOfFailed
  passed := unionPreferNonNull a.passed b.passed
  gasDiffOverall := unionPreferNonNull a.gasDiffOverall b.gasDiffOverall

/-- Spec-side union of the fields of a per-test record with those of a
gas-diff record of the same test: the union of their fields, the gas-diff
side preferred where both are present. -/
def TestRecord.unionSpec (r : TestRecord) (g : GasDiffRecord) : TestRecord where
  test := r.test
  status := r.status
  gasUsed := unionPreferNonNull r.gasUsed g.gasUsed
  gasDiff := unionPreferNonNull r.gasDiff g.gasDiff
  reason := r.reason

/-- Spec-side merged per-test record: when the gas-diff side has no record
of this test's name the record keeps exactly the fields it had; when it
has one, the record carries the union of the two records' fields. -/
def mergeRecordSpec (r : TestRecord) (g : Option GasDiffRecord) : TestRecord :=
  match g with
  | none => r
  | some gr => r.unionSpec gr

end forgeUtils

namespace projectService

/-- The history record `saveProject` constructs when the discovery
container exited with a non-`PURPOSELY_STOPPED` status: purpose
`PROJECT_CREATION`, with the raw (unprocessed) output. -/
def rawCreationHistory (img : DockerImageRec) (cr : ContainerResultsRec) :
    DockerContainerHistoryRec where
  dockerImage := img
  purpose := .PROJECT_CREATION
  container := { statusCode := cr.statusCode, output := .raw cr.output }

/-- A concrete `saveProject` environment in which every step succeeds but
the discovery container exits with status code 1 (not
`PURPOSELY_STOPPED`). -/
def envDiscoveryFailed : SaveProjectEnv where
  readProject := .ok ()
  createImage := .ok { imageName := "proj", imageID := "sha256:abc" }
  runImage := .ok { statusCode := 1, output := some { data := some "boom" } }
  saveResult := .ok true

/-- The history record `saveProject` persists under `envDiscoveryFailed`. -/
def historyDiscoveryFailed : DockerContainerHistoryRec where
  dockerImage := { imageName := "proj", imageID := "sha256:abc" }
  purpose := .PROJECT_CREATION
  container := { statusCode := 1, output := .raw (some { data := some "boom" }) }

/-- A concrete `saveProject` environment in which the image builds but the
discovery container run fails with a docker error. -/
def envRunFailed : SaveProjectEnv where
  readProject := .ok ()
  createImage := .ok { imageName := "proj", imageID := "sha256:abc" }
  runImage := .error { statusCode := 503, message := "docker unavailable" }
  saveResult := .ok true

end projectService

namespace forgeUtils

theorem camel_kebab (l : List Char) : ∀ c : Char,
    (camelSplitAux (c :: l)).map Char.toLower = c.toLower :: kebabAux (some c) l := by
  induction l with
  | nil => intro c; simp [camelSplitAux, kebabAux]
  | cons c2 rest ih =>
    intro c
    by_cases h1 : c.isLower <;> by_cases h2 : c2.isUpper <;>
      simp [camelSplitAux, kebabAux, h1, h2, ih c2,
        show Char.toLower '-' = '-' from by decide]

theorem kebab_none (l : List Char) :
    (camelSplitAux l).map Char.toLower = kebabAux none l := by
  cases l with
  | nil => rfl
  | cons c rest => rw [camel_kebab]; simp [kebabAux]

/-- The code's rendering of one argument coincides with the spec-side
rendering `--kebab-case value`. -/
theorem renderArgSpec_eq (p : String × String) :
    renderArgSpec p = convertCamelToExecArg p.1 ++ " " ++ p.2 := by
  unfold renderArgSpec convertCamelToExecArg
  rw [← kebab_none]

theorem render_data_ne_nil (p : String × String) :
    (convertCamelToExecArg p.1 ++ " " ++ p.2).data ≠ [] := by
  simp [convertCamelToExecArg]

theorem joinSpace_ne_empty (x : String) (xs : List String) (h : x.data ≠ []) :
    joinSpace (x :: xs) ≠ "" := by
  cases xs with
  | nil => simpa [joinSpace, String.ext_iff] using h
  | cons y ys => simp [joinSpace, String.ext_iff, h]

theorem getTestExecutionCommand_some_eq (entries : List (String × String)) :
    getTestExecutionCommand (some entries)
      = joinSpace (FORGE_CMD_COMPARE_SNAPSHOTS ::
          ((entries.filter fun p => VALID_TEST_EXECUTION_ARGUMENTS.contains p.1).map
            renderArgSpec)) := by
  have hfun : renderArgSpec
      = (fun p : String × String => convertCamelToExecArg p.1 ++ " " ++ p.2) :=
    funext renderArgSpec_eq
  cases hfil : entries.filter fun p => VALID_TEST_EXECUTION_ARGUMENTS.contains p.1 with
  | nil =>
    simp only [getTestExecutionCommand, convertTestExecutionArgsToString, hfil]
    simp [joinSpace]
  | cons q qs =>
    have hne : joinSpace ((q :: qs).map fun p => convertCamelToExecArg p.1 ++ " " ++ p.2)
        ≠ "" := by
      rw [List.map_cons]
      exact joinSpace_ne_empty _ _ (render_data_ne_nil q)
    simp only [getTestExecutionCommand, convertTestExecutionArgsToString, hfil]
    rw [if_neg hne]
    simp [joinSpace, hfun]

end forgeUtils

/-- C5: for every execution-arguments object, the computed execution
command equals the tool's compare-snapshots base command followed by each
retained whitelisted argument rendered as `--` plus the kebab-case form of
its camelCase name, a space, and its value, with arguments separated by
single spaces. -/
theorem forgeUtils.c5_execution_command_shape
    (execArgs : Option (List (String × String))) :
    forgeUtils.getTestExecutionCommand execArgs
      = forgeUtils.joinSpace (forgeUtils.FORGE_CMD_COMPARE_SNAPSHOTS ::
          (((execArgs.getD []).filter
              fun p => forgeUtils.VALID_TEST_EXECUTION_ARGUMENTS.contains p.1).map
            forgeUtils.renderArgSpec)) := by
  cases execArgs with
  | none => rfl
  | some entries => exact forgeUtils.getTestExecutionCommand_some_eq entries

/-- C4: for every execution-arguments object, every key outside the closed
whitelist is silently dropped — the computed command coincides with the one
computed from the whitelisted entries alone — and an entry is retained
exactly when its key is whitelisted. -/
theorem forgeUtils.c4_whitelist_filtering (entries : List (String × String)) :
    forgeUtils.getTestExecutionCommand (some entries)
      = forgeUtils.getTestExecutionCommand (some (entries.filter
          fun p => forgeUtils.VALID_TEST_EXECUTION_ARGUMENTS.contains p.1))
    ∧ ∀ p : String × String,
        (p ∈ entries.filter
          fun p => forgeUtils.VALID_TEST_EXECUTION_ARGUMENTS.contains p.1)
          ↔ p ∈ entries ∧ p.1 ∈ forgeUtils.VALID_TEST_EXECUTION_ARGUMENTS := by
  constructor
  · simp [forgeUtils.getTestExecutionCommand,
      forgeUtils.convertTestExecutionArgsToString, List.filter_filter]
  · intro p
    rw [List.mem_filter]
    simp

/-- C9: for every call to `getTestExecutionCommand` where the
execution-arguments object is `undefined`, empty, or contains no
whitelisted key, the returned command is exactly the compare-snapshots
base command, with nothing appended. -/
theorem forgeUtils.c9_no_whitelisted_args
    (execArgs : Option (List (String × String)))
    (h : execArgs = none ∨
      ∀ p ∈ execArgs.getD [], p.1 ∉ forgeUtils.VALID_TEST_EXECUTION_ARGUMENTS) :
    forgeUtils.getTestExecutionCommand execArgs
      = forgeUtils.FORGE_CMD_COMPARE_SNAPSHOTS := by
  cases execArgs with
  | none => rfl
  | some entries =>
    have hfil : entries.filter
        (fun p => forgeUtils.VALID_TEST_EXECUTION_ARGUMENTS.contains p.1) = [] := by
      rw [List.filter_eq_nil_iff]
      intro p hp
      rcases h with h | h
      · cases h
      · simpa using h p hp
    simp only [forgeUtils.getTestExecutionCommand,
      forgeUtils.convertTestExecutionArgsToString, hfil]
    simp [forgeUtils.joinSpace]

/-- Witness for C9 at a concrete input: a single non-whitelisted argument
yields exactly the base command. -/
theorem forgeUtils.c9_no_whitelisted_args_witness :
    forgeUtils.getTestExecutionCommand (some [("badArg", "x")])
      = forgeUtils.FORGE_CMD_COMPARE_SNAPSHOTS :=
  forgeUtils.c9_no_whitelisted_args (some [("badArg", "x")]) (Or.inr (by decide))

example : forgeUtils.getTestExecutionCommand
    (some [("fuzzRuns", "42"), ("bad", "1"), ("noMatchContract", "Foo")])
    = "forge snapshot --diff --fuzz-runs 42 --no-match-contract Foo" := by decide

example : forgeUtils.convertCamelToExecArg "noMatchContract" = "--no-match-contract" := by
  decide

theorem forgeUtils.orElse_eq_unionPreferNonNull {α : Type} (a b : Option α) :
    (b.orElse fun _ => a) = forgeUtils.unionPreferNonNull a b := by
  cases b <;> rfl

/-- C3 (counterexample): in the merge of the two parser outputs, a test
present only in the gas-diff output does not appear in the merged `tests`
sequence — here `Foo.testBar` has a gas-diff record but the forge-test
side has an empty `tests` array, and the merged sequence is empty. -/
theorem forgeUtils.c3_counterexample :
    (([("Foo.testBar", ({ gasUsed := some 5, gasDiff := some 2 } :
        forgeUtils.GasDiffRecord))].lookup "Foo.testBar").isSome = true)
    ∧ (forgeUtils.processForgeTestOutputMerge { overall := {}, tests := some [] }
        { overall := {},
          tests := [("Foo.testBar", { gasUsed := some 5, gasDiff := some 2 })] }).tests
      = some [] :=
  ⟨rfl, rfl⟩

/-- C3 (amended): the merged `overall` block is the field-wise union of
the two `overall` blocks preferring non-null values (gas-diff side wins
when both are present); the merged `tests` sequence is obtained from the
forge-test side's sequence alone — each of its tests keyed by name carries
the union of its fields with the gas-diff record of the same name when one
exists, and exactly its own fields otherwise; tests present only in the
gas-diff output are dropped. -/
theorem forgeUtils.c3_merge_characterization (t : forgeUtils.ForgeTestParserOutput)
    (g : forgeUtils.GasChangeParserOutput) :
    (forgeUtils.processForgeTestOutputMerge t g).overall
        = t.overall.unionSpec g.overall
    ∧ ((forgeUtils.processForgeTestOutputMerge t g).tests = none ↔ t.tests = none)
    ∧ ∀ l, t.tests = some l →
        (forgeUtils.processForgeTestOutputMerge t g).tests
          = some (l.map fun r =>
              forgeUtils.mergeRecordSpec r (g.tests.lookup r.test)) := by
  refine ⟨?_, ?_, ?_⟩
  · show forgeUtils.Overall.spread t.overall g.overall = _
    simp [forgeUtils.Overall.spread, forgeUtils.Overall.unionSpec,
      forgeUtils.orElse_eq_unionPreferNonNull]
  · simp [forgeUtils.processForgeTestOutputMerge, Option.map_eq_none]
  · intro l hl
    simp only [forgeUtils.processForgeTestOutputMerge, hl, Option.map_some]
    refine congrArg some (List.map_congr_left ?_)
    intro r _
    cases hlk : g.tests.lookup r.test <;>
      simp [forgeUtils.mergeRecordSpec, hlk, forgeUtils.TestRecord.spreadGas,
        forgeUtils.TestRecord.unionSpec, forgeUtils.orElse_eq_unionPreferNonNull]

/-- Witness for C3 (amended) at a concrete input: one forge-test record
merged with its gas-diff record of the same name. -/
theorem forgeUtils.c3_merge_characterization_witness :
    (forgeUtils.processForgeTestOutputMerge
        { overall := {}, tests := some [{ test := "Foo.testBar" }] }
        { overall := {},
          tests := [("Foo.testBar", { gasUsed := some 5, gasDiff := some 2 })] }).tests
      = some ([({ test := "Foo.testBar" } : forgeUtils.TestRecord)].map fun r =>
          forgeUtils.mergeRecordSpec r ([("Foo.testBar",
            ({ gasUsed := some 5, gasDiff := some 2 } :
              forgeUtils.GasDiffRecord))].lookup r.test)) :=
  (forgeUtils.c3_merge_characterization _ _).2.2 [{ test := "Foo.testBar" }] rfl

/-- C6: processing gas-snapshot parser output never raises —
`processDockerContainerOutput` always returns successfully (the parser is
total), `null`/`undefined` input yields the empty `TestOutput`, and any
text in which no line parses yields a `TestOutput` with an empty test
sequence and a zero test count. -/
theorem projectService.c6_parser_never_raises (projectName : String)
    (output : Option projectService.RawOutput) :
    isError (projectService.processDockerContainerOutput projectName output) = false
    ∧ forgeUtils.processForgeSnapshotOutput none = {}
    ∧ ∀ s : String,
        (∀ line ∈ forgeUtils.splitLines s, forgeUtils.parseGasSnapshotLine line = none) →
        forgeUtils.processForgeSnapshotOutput (some s)
          = { overall := { numberOfTests := some 0 }, tests := some [] } := by
  refine ⟨rfl, rfl, ?_⟩
  intro s h
  have hnil : (forgeUtils.splitLines s).filterMap forgeUtils.parseGasSnapshotLine = [] := by
    rw [List.filterMap_eq_nil_iff]
    exact h
  simp [forgeUtils.processForgeSnapshotOutput,
    forgeUtils.extractTestOutputFromGasSnapshot, hnil]

/-- Witness for C6 at a concrete input: unrecognized compiler chatter
parses to the empty result and the wrapped call succeeds. -/
theorem projectService.c6_parser_never_raises_witness :
    isError (projectService.processDockerContainerOutput "proj"
        (some { data := some "Compiling 12 files" })) = false
    ∧ forgeUtils.processForgeSnapshotOutput (some "Compiling 12 files")
        = { overall := { numberOfTests := some 0 }, tests := some [] } :=
  ⟨(projectService.c6_parser_never_raises "proj"
      (some { data := some "Compiling 12 files" })).1,
   (projectService.c6_parser_never_raises "proj"
      (some { data := some "Compiling 12 files" })).2.2
     "Compiling 12 files" (by decide)⟩

example : forgeUtils.parseGasSnapshotLine "MyTest:testFoo() (gas: 1234)"
    = some { test := "MyTest.testFoo", status := some .PASS, gasUsed := some 1234 } := by
  decide

example : forgeUtils.extractTestOutputFromGasSnapshot
    (some "MyTest:testFoo() (gas: 12)\ngarbage\nMyTest:testBar() (gas: 7)")
    = { overall := { numberOfTests := some 2 },
        tests := some [{ test := "MyTest.testFoo", status := some .PASS, gasUsed := some 12 },
                       { test := "MyTest.testBar", status := some .PASS, gasUsed := some 7 }] } := by
  decide

/-- C1 (counterexample): with every step succeeding and the discovery
container exiting with code 1 (not `PURPOSELY_STOPPED`), `saveProject`
does not fail — it persists the image and a history record carrying the
raw output, and removes nothing. -/
theorem projectService.c1_counterexample :
    (1 : Nat) ≠ projectService.DockerExitCode.PURPOSELY_STOPPED
    ∧ projectService.saveProject projectService.envDiscoveryFailed "proj"
      = (.ok (true, projectService.historyDiscoveryFailed),
         { removedImages := [],
           savedHistories := [projectService.historyDiscoveryFailed] }) :=
  ⟨by decide, rfl⟩

/-- C1 (amended): if the discovery container exits with any status code
other than `PURPOSELY_STOPPED`, `saveProject` skips the output-processing
step but still succeeds: it persists the image together with a
`ContainerExecution` history record carrying the raw output, removes no
image, and raises no error. -/
theorem projectService.c1_amended (env : projectService.SaveProjectEnv)
    (projectName : String) (img : projectService.DockerImageRec)
    (cr : projectService.ContainerResultsRec) (isNew : Bool)
    (h1 : env.readProject = .ok ())
    (h2 : env.createImage = .ok img)
    (h3 : env.runImage = .ok cr)
    (h4 : cr.statusCode ≠ projectService.DockerExitCode.PURPOSELY_STOPPED)
    (h5 : env.saveResult = .ok isNew) :
    projectService.saveProject env projectName
      = (.ok (isNew, projectService.rawCreationHistory img cr),
         { removedImages := [],
           savedHistories := [projectService.rawCreationHistory img cr] }) := by
  simp [projectService.saveProject, projectService.rawCreationHistory, h1, h2, h3, h4, h5]

/-- Witness for C1 (amended) at the concrete environment
`envDiscoveryFailed`. -/
theorem projectService.c1_amended_witness :
    projectService.saveProject projectService.envDiscoveryFailed "proj"
      = (.ok (true, projectService.historyDiscoveryFailed),
         { removedImages := [],
           savedHistories := [projectService.historyDiscoveryFailed] }) :=
  projectService.c1_amended projectService.envDiscoveryFailed "proj"
    { imageName := "proj", imageID := "sha256:abc" }
    { statusCode := 1, output := some { data := some "boom" } } true
    rfl rfl rfl (by decide) rfl

/-- C7: if any step of `saveProject` fails after the Docker image has been
created (discovery-run failure or persistence failure), the created image
is removed with prune before the error is re-thrown. -/
theorem projectService.c7_image_removed_on_failure
    (env : projectService.SaveProjectEnv) (projectName : String)
    (img : projectService.DockerImageRec)
    (h1 : env.readProject = .ok ())
    (h2 : env.createImage = .ok img)
    (h3 : (∃ e, env.runImage = .error e) ∨ (∃ e, env.saveResult = .error e)) :
    isError (projectService.saveProject env projectName).1 = true
    ∧ (projectService.saveProject env projectName).2.removedImages
        = [(img.imageName, true)] := by
  rcases h3 with ⟨e, he⟩ | ⟨e, he⟩
  · constructor <;> simp [projectService.saveProject, h1, h2, he, isError]
  · cases hrun : env.runImage with
    | error e2 =>
      constructor <;> simp [projectService.saveProject, h1, h2, hrun, isError]
    | ok cr =>
      by_cases hsc : cr.statusCode = projectService.DockerExitCode.PURPOSELY_STOPPED <;>
        constructor <;>
        simp [projectService.saveProject, h1, h2, hrun, he, hsc, isError,
          projectService.processDockerContainerOutput, Except.map]

/-- Witness for C7 at the concrete environment `envRunFailed` (the
discovery container run fails). -/
theorem projectService.c7_image_removed_on_failure_witness :
    isError (projectService.saveProject projectService.envRunFailed "proj").1 = true
    ∧ (projectService.saveProject projectService.envRunFailed "proj").2.removedImages
        = [("proj", true)] :=
  projectService.c7_image_removed_on_failure projectService.envRunFailed "proj"
    { imageName := "proj", imageID := "sha256:abc" }
    rfl rfl (Or.inl ⟨{ statusCode := 503, message := "docker unavailable" }, rfl⟩)

/-- C2 (counterexample): a container execution response with status
`APPLICATION_ERROR` is not returned to the caller as a payload — the front
service's `executeSubmission` throws it as an error. -/
theorem executionApi.c2_counterexample :
    executionApi.executeSubmission "proj"
        (.ok { status := .APPLICATION_ERROR })
      = .error (executionApi.handleContainerError { status := .APPLICATION_ERROR }) :=
  rfl

/-- C2 (amended): `executeSubmission` returns the
`ContainerExecutionResponse` to the caller exactly when its status is
`SUCCESS`; any other status (including `APPLICATION_ERROR` and `TIMEOUT`)
is raised as an error built from the response by `handleContainerError`
instead of being delivered as a payload. -/
theorem executionApi.c2_amended (projectName : String)
    (resp : executionApi.ContainerExecutionResponse) :
    (executionApi.executeSubmission projectName (.ok resp) = .ok resp
      ↔ resp.status = .SUCCESS)
    ∧ (resp.status ≠ .SUCCESS →
        executionApi.executeSubmission projectName (.ok resp)
          = .error (executionApi.handleContainerError resp)) := by
  by_cases h : resp.status = executionApi.ContainerExecutionStatus.SUCCESS <;>
    simp [executionApi.executeSubmission, h]

/-- Witness for C2 (amended) at a concrete input: a `TIMEOUT` response is
thrown, not returned. -/
theorem executionApi.c2_amended_witness :
    executionApi.executeSubmission "proj" (.ok { status := .TIMEOUT })
      = .error (executionApi.handleContainerError { status := .TIMEOUT }) :=
  (executionApi.c2_amended "proj" { status := .TIMEOUT }).2 (by decide)

/-- C8 (counterexample): updating a message request with the `response`
argument omitted yields a record that is COMPLETED and carries the
associated document reference but carries neither a response payload nor
an error payload — both `isError` and `output` are unset. -/
theorem messageRequestService.c8_counterexample :
    messageRequestService.updateMessageRequest
        [{ id := 1 }] { id := 1 } 7 "Submission" none none
      = .ok { id := 1, completed := true, isError := none, output := none,
              associatedDocumentId := some 7,
              associatedDocumentType := some "Submission",
              startingPositionInQueue := some 0 } :=
  rfl

/-- C8 (amended): whenever `updateMessageRequest` succeeds, the updated
record is COMPLETED and carries the associated document reference; when a
response argument was supplied the record carries its payload in `output`
and its `isError` flag, and when it was omitted both `isError` and
`output` are unset. -/
theorem messageRequestService.c8_amended (db : List messageRequestService.MessageRequestRec)
    (messageRequest : messageRequestService.MessageRequestRec)
    (associatedDocumentId : Nat) (associatedDocumentType : String)
    (response : Option messageRequestService.UpdateResponse)
    (positionInTheQueue : Option Nat)
    (u : messageRequestService.MessageRequestRec)
    (h : messageRequestService.updateMessageRequest db messageRequest
        associatedDocumentId associatedDocumentType response positionInTheQueue
      = .ok u) :
    u.completed = true
    ∧ u.associatedDocumentId = some associatedDocumentId
    ∧ u.associatedDocumentType = some associatedDocumentType
    ∧ u.isError = response.map messageRequestService.UpdateResponse.isError
    ∧ u.output = response.map messageRequestService.UpdateResponse.data := by
  unfold messageRequestService.updateMessageRequest at h
  cases hf : messageRequestService.findMessageRequest db messageRequest.id with
  | error e => rw [hf] at h; cases h
  | ok found =>
    rw [hf] at h
    cases h
    simp

/-- Witness for C8 (amended) at a concrete input with a response supplied. -/
theorem messageRequestService.c8_amended_witness :
    ({ id := 1, completed := true, isError := some false,
       output := some .obj, associatedDocumentId := some 7,
       associatedDocumentType := some "Submission",
       startingPositionInQueue := some 3 } :
        messageRequestService.MessageRequestRec).completed = true
    ∧ ({ id := 1, completed := true, isError := some false,
         output := some .obj, associatedDocumentId := some 7,
         associatedDocumentType := some "Submission",
         startingPositionInQueue := some 3 } :
          messageRequestService.MessageRequestRec).associatedDocumentId = some 7
    ∧ ({ id := 1, completed := true, isError := some false,
         output := some .obj, associatedDocumentId := some 7,
         associatedDocumentType := some "Submission",
         startingPositionInQueue := some 3 } :
          messageRequestService.MessageRequestRec).associatedDocumentType
        = some "Submission"
    ∧ ({ id := 1, completed := true, isError := some false,
         output := some .obj, associatedDocumentId := some 7,
         associatedDocumentType := some "Submission",
         startingPositionInQueue := some 3 } :
          messageRequestService.MessageRequestRec).isError
        = (some { isError := false, data := .obj } :
            Option messageRequestService.UpdateResponse).map
            messageRequestService.UpdateResponse.isError
    ∧ ({ id := 1, completed := true, isError := some false,
         output := some .obj, associatedDocumentId := some 7,
         associatedDocumentType := some "Submission",
         startingPositionInQueue := some 3 } :
          messageRequestService.MessageRequestRec).output
        = (some { isError := false, data := .obj } :
            Option messageRequestService.UpdateResponse).map
            messageRequestService.UpdateResponse.data :=
  messageRequestService.c8_amended [{ id := 1 }] { id := 1 } 7 "Submission"
    (some { isError := false, data := .obj }) (some 3)
    { id := 1, completed := true, isError := some false,
      output := some .obj, associatedDocumentId := some 7,
      associatedDocumentType := some "Submission",
      startingPositionInQueue := some 3 }
    rfl

/-- C10: a request without an attached file, or whose file has no
buffer, makes `getRequestFile` fail with a 400 (BadRequest) application
error rather than an unhandled exception; a request whose file has a
buffer gets that file back unchanged. -/
theorem routerUtils.c10_getRequestFile (req : routerUtils.Request) :
    (req.file = none →
      routerUtils.getRequestFile req
        = .error (routerUtils.handleErrorWith
            "An error occurred while reading the file buffer." 400))
    ∧ ∀ f, req.file = some f →
        ((f.buffer = none →
          routerUtils.getRequestFile req
            = .error (routerUtils.handleErrorWith
                "An error occurred while reading the file buffer." 400))
         ∧ (f.buffer ≠ none → routerUtils.getRequestFile req = .ok f)) := by
  obtain ⟨file⟩ := req
  cases file with
  | none =>
    refine ⟨fun _ => rfl, ?_⟩
    intro f hf
    cases hf
  | some f =>
    refine ⟨fun h => (nomatch h), ?_⟩
    intro f2 hf2
    injection hf2 with hff
    subst hff
    cases hb : f.buffer with
    | none =>
      refine ⟨fun _ => ?_, fun hne => absurd rfl hne⟩
      simp [routerUtils.getRequestFile, hb]
    | some b =>
      refine ⟨fun habs => (nomatch habs), fun _ => ?_⟩
      simp [routerUtils.getRequestFile, hb]

/-- Witness for C10 at concrete inputs: a fileless request yields the 400
error and a request with a buffered file returns the file unchanged. -/
theorem routerUtils.c10_getRequestFile_witness :
    routerUtils.getRequestFile { file := none }
      = .error (routerUtils.handleErrorWith
          "An error occurred while reading the file buffer." 400)
    ∧ routerUtils.getRequestFile
        { file := some { fieldname := "projectZip",
                         originalname := "project.zip", buffer := some [80, 75] } }
      = .ok { fieldname := "projectZip",
              originalname := "project.zip", buffer := some [80, 75] } :=
  ⟨(routerUtils.c10_getRequestFile { file := none }).1 rfl,
   ((routerUtils.c10_getRequestFile
      { file := some { fieldname := "projectZip",
                       originalname := "project.zip", buffer := some [80, 75] } }).2
     { fieldname := "projectZip", originalname := "project.zip",
       buffer := some [80, 75] } rfl).2 (by decide)⟩
